import Mathlib

/-!
Shallow embedding of the account / entitlement / quota core of the
NovaVoice application backend (src/app.py) and proofs about it.

Modelling conventions:
* the sqlite store is a pure `DB` value; each endpoint handler is a pure
  function `DB → inputs → DB × Except ApiError output`, returning the
  persisted state together with the HTTP outcome (errors carry the state
  so that the effect of a failing request is visible);
* sqlite `INTEGER PRIMARY KEY AUTOINCREMENT` columns are modelled by
  `next_*` counters in `DB`; freshly drawn `uuid.uuid4()` values
  (api keys, sample file names, transaction ids) are modelled by
  explicit fresh inputs or by the `next_txn` fresh-supply counter;
* dates are modelled as day ordinals (`Nat`); `date.today()` is the
  explicit parameter `today`, and `+ timedelta(days = 30)` is `+ 30`;
* the pyttsx3 synthesis engine is an external collaborator: its outcome
  is the explicit parameter `synth : Except String String` (an error
  message on failure, the produced file path on success);
* `sha256` password hashing is external: handlers take the digest as an
  input string;
* JSON-encoded columns (`emotion_support`, `settings`) are modelled by a
  list of strings resp. a `Settings` structure; the opaque
  `voice_params` JSON blob is kept as a plain string.
-/

/-- Row of the `users` table (src/app.py, `CREATE TABLE users`).
`daily_generations_left` is `Int` because the sqlite column is a plain
INTEGER with no non-negativity constraint. -/
structure Account where
  id : Nat
  username : String
  email : String
  password_hash : String
  subscription_tier : String
  subscription_expiry : Option Nat
  api_key : String
  daily_generations_left : Int
deriving DecidableEq, Repr

/-- Row of the `voices` table. `user_id = none` marks a global preset. -/
structure Voice where
  id : Nat
  user_id : Option Nat
  voice_name : String
  voice_type : String
  voice_params : String
  language : String
  accent : String
  emotion_support : List String
  sample_path : Option String
deriving DecidableEq, Repr

/-- Settings JSON stored with each generation record. -/
structure Settings where
  speed : Rat
  pitch : Rat
  emotion : String
deriving DecidableEq, Repr

/-- Row of the `audio_history` table. -/
structure AudioRecord where
  id : Nat
  user_id : Nat
  text_input : String
  voice_id : Nat
  audio_file_path : String
  settings : Settings
deriving DecidableEq, Repr

/-- Row of the `payments` table. The `transaction_id` column holds the
string `SIM_TXN_<uuid4>`; the uuid draw is modelled by the fresh-supply
counter `DB.next_txn`, so the identifier is kept as the drawn `Nat`. -/
structure Payment where
  id : Nat
  user_id : Nat
  tier : String
  amount : Rat
  payment_method : String
  transaction_id : Nat
deriving DecidableEq, Repr

/-- The whole sqlite store, with autoincrement counters and the
fresh-identifier supply for transaction ids. -/
@[ext]
structure DB where
  users : List Account
  voices : List Voice
  audio_history : List AudioRecord
  payments : List Payment
  next_user_id : Nat
  next_voice_id : Nat
  next_history_id : Nat
  next_payment_id : Nat
  next_txn : Nat
deriving DecidableEq, Repr

/-- Error outcomes of the endpoint handlers, one constructor per distinct
HTTPException raised in src/app.py:
`unauthenticated` = 401 Invalid API Key;
`quotaExhausted` = 403 Daily generation limit reached for Basic tier;
`conflict` = 400 Username or email already exists;
`voiceNotFound` = 404 Voice not found;
`userNotFound` = 404 User not found;
`tierRestriction` = 403 Voice cloning requires Premium or Ultimate tier;
`synthesisFailed` = 500 Failed to generate speech. -/
inductive ApiError where
  | unauthenticated
  | quotaExhausted
  | conflict
  | voiceNotFound
  | userNotFound
  | tierRestriction
  | synthesisFailed (msg : String)
deriving DecidableEq, Repr

/-- Body of the `/tts/generate` request (`TTSRequest` pydantic model). -/
structure TTSRequest where
  text : String
  voice_id : Nat
  user_api_key : String
  speed : Rat
  pitch : Rat
  emotion : String
deriving DecidableEq, Repr

/-- Simulated payment details dict: `card_number`, `expiry`, `cvv` keys,
each possibly absent. -/
structure PaymentDetails where
  card_number : Option String
  expiry : Option String
  cvv : Option String
deriving DecidableEq, Repr

/-- Lookup `SELECT * FROM users WHERE api_key = ?` (first matching row). -/
def findUserByKey (db : DB) (key : String) : Option Account :=
  db.users.find? (fun u => u.api_key == key)

/-- Lookup `SELECT * FROM users WHERE id = ?` (first matching row). -/
def findUserById (db : DB) (uid : Nat) : Option Account :=
  db.users.find? (fun u => u.id == uid)

/-- Embedding of `get_current_user_by_api_key` (src/app.py lines 239-250):
resolve the bearer api key, then refuse Basic-tier callers whose
`daily_generations_left` is already `<= 0`. -/
def get_current_user_by_api_key (db : DB) (api_key : String) :
    Except ApiError Account :=
  match findUserByKey db api_key with
  | none => .error .unauthenticated
  | some user =>
    if user.subscription_tier = "Basic" ∧ user.daily_generations_left ≤ 0 then
      .error .quotaExhausted
    else
      .ok user

/-- Embedding of `register_user` (src/app.py lines 254-271). The sqlite
UNIQUE constraints on `username`, `email` and `api_key` make the INSERT
raise `IntegrityError` on any duplicate, which the handler converts to
the Conflict error; the uncommitted INSERT is rolled back, so the store
is returned unchanged in that case. `password_hash` (sha256 digest) and
`api_key` (uuid4 draw) are taken as inputs, see the module comment. -/
def register_user (db : DB) (username email password_hash api_key : String) :
    DB × Except ApiError Account :=
  if db.users.any (fun u =>
      u.username == username || u.email == email || u.api_key == api_key) then
    (db, .error .conflict)
  else
    let acct : Account :=
      { id := db.next_user_id, username := username, email := email,
        password_hash := password_hash, subscription_tier := "Basic",
        subscription_expiry := none, api_key := api_key,
        daily_generations_left := 10 }
    ({ db with users := db.users ++ [acct],
               next_user_id := db.next_user_id + 1 }, .ok acct)

/-- Embedding of `list_voices` (src/app.py lines 284-307). Mirrors the
Python truthiness tests: `if user_api_key:` treats the empty string like
an absent key, and `if user_id:` treats id 0 like an unresolved caller.
The SQL filter is `voice_type = 'preset' OR (user_id = ? AND voice_type
IN ('cloned', 'designed'))`. -/
def list_voices (db : DB) (user_api_key : Option String) : List Voice :=
  let uid : Option Nat :=
    match user_api_key with
    | none => none
    | some key =>
      if key = "" then none
      else
        match findUserByKey db key with
        | none => none
        | some u => some u.id
  match uid with
  | some i =>
    if i ≠ 0 then
      db.voices.filter (fun v =>
        v.voice_type == "preset" ||
          (v.user_id == some i &&
            (v.voice_type == "cloned" || v.voice_type == "designed")))
    else
      db.voices.filter (fun v => v.voice_type == "preset")
  | none =>
    db.voices.filter (fun v => v.voice_type == "preset")

/-- Effect of the allowance decrement on one `users` row. -/
def decOne (uid : Nat) (x : Account) : Account :=
  if x.id == uid then
    { x with daily_generations_left := x.daily_generations_left - 1 }
  else x

/-- The `UPDATE users SET daily_generations_left = daily_generations_left
- 1 WHERE id = ?` statement of `generate_speech`. -/
def decUsers (uid : Nat) (l : List Account) : List Account :=
  l.map (decOne uid)

/-- Embedding of `generate_speech` (src/app.py lines 310-384).
Control flow as in the source: authenticate (with the Basic quota
check), resolve the voice (404 when absent), then — before the synthesis
attempt — decrement and commit the Basic caller's allowance, then run
the external synthesis step; on synthesis failure the 500 error is
returned with the decrement already persisted; on success one
`audio_history` row is committed and the file path returned. -/
def generate_speech (db : DB) (req : TTSRequest)
    (synth : Except String String) : DB × Except ApiError String :=
  match get_current_user_by_api_key db req.user_api_key with
  | .error e => (db, .error e)
  | .ok user =>
    match db.voices.find? (fun v => v.id == req.voice_id) with
    | none => (db, .error .voiceNotFound)
    | some _voice =>
      let db1 :=
        if user.subscription_tier = "Basic" then
          { db with users := decUsers user.id db.users }
        else db
      match synth with
      | .error msg => (db1, .error (.synthesisFailed msg))
      | .ok filepath =>
        let entry : AudioRecord :=
          { id := db1.next_history_id, user_id := user.id,
            text_input := req.text, voice_id := req.voice_id,
            audio_file_path := filepath,
            settings := { speed := req.speed, pitch := req.pitch,
                          emotion := req.emotion } }
        ({ db1 with audio_history := db1.audio_history ++ [entry],
                    next_history_id := db1.next_history_id + 1 },
         .ok filepath)

/-- Embedding of `clone_voice` (src/app.py lines 387-431): authenticate
(including the Basic quota check inside `get_current_user_by_api_key`),
then reject callers whose tier is not Premium or Ultimate, else insert
one `voices` row of type `cloned` owned by the caller. The engine-voice
part of the stored `voice_params` JSON depends on the external pyttsx3
engine and is kept opaque. -/
def clone_voice (db : DB)
    (user_api_key voice_name language accent sample_filepath : String) :
    DB × Except ApiError Voice :=
  match get_current_user_by_api_key db user_api_key with
  | .error e => (db, .error e)
  | .ok user =>
    if user.subscription_tier ≠ "Premium" ∧ user.subscription_tier ≠ "Ultimate" then
      (db, .error .tierRestriction)
    else
      let v : Voice :=
        { id := db.next_voice_id, user_id := some user.id,
          voice_name := voice_name, voice_type := "cloned",
          voice_params := "cloned_from_sample=" ++ sample_filepath,
          language := language, accent := accent,
          emotion_support := ["neutral"],
          sample_path := some sample_filepath }
      ({ db with voices := db.voices ++ [v],
                 next_voice_id := db.next_voice_id + 1 }, .ok v)

/-- The `generations_map = {"Basic": 10, "Premium": 100, "Ultimate":
1000}` dict with `.get(tier, 10)` default (src/app.py line 455). -/
def generations_map (tier : String) : Int :=
  if tier = "Basic" then 10
  else if tier = "Premium" then 100
  else if tier = "Ultimate" then 1000
  else 10

/-- The simulated price dict `{"Basic": 0.0, "Premium": 9.99,
"Ultimate": 29.99}` with `.get(tier, 0)` default (src/app.py line 464). -/
def price_map (tier : String) : Rat :=
  if tier = "Basic" then 0
  else if tier = "Premium" then (999 : Rat) / 100
  else if tier = "Ultimate" then (2999 : Rat) / 100
  else 0

/-- Python `s[-4:]`: the last four characters, or the whole string when
it is shorter than four characters. -/
def pyLast4 (s : String) : String :=
  ⟨s.data.drop (s.data.length - 4)⟩

/-- The masked payment-method string
`f"Simulated Card **** {payment_details.get('card_number', '0000')[-4:]}"`. -/
def maskedMethod (d : PaymentDetails) : String :=
  "Simulated Card **** " ++ pyLast4 (d.card_number.getD "0000")

/-- The payments row inserted by `handle_subscription`, built from the
pre-transition store (autoincrement id, fresh transaction id). -/
def mkPayment (db : DB) (uid : Nat) (tier : String) (d : PaymentDetails) :
    Payment :=
  { id := db.next_payment_id, user_id := uid, tier := tier,
    amount := price_map tier, payment_method := maskedMethod d,
    transaction_id := db.next_txn }

/-- Effect of the subscription update on one `users` row. -/
def subUpdateOne (uid : Nat) (tier : String) (expiry : Nat)
    (allowance : Int) (u : Account) : Account :=
  if u.id == uid then
    { u with subscription_tier := tier,
             subscription_expiry := some expiry,
             daily_generations_left := allowance }
  else u

/-- The `UPDATE users SET subscription_tier = ?, subscription_expiry = ?,
daily_generations_left = ? WHERE id = ?` statement. -/
def subUpdateUsers (uid : Nat) (tier : String) (expiry : Nat)
    (allowance : Int) (l : List Account) : List Account :=
  l.map (subUpdateOne uid tier expiry allowance)

/-- Embedding of `handle_subscription` (src/app.py lines 434-472):
resolve the account (404 when absent), then in a single transaction
update the account's tier / expiry / allowance and insert one payments
row, and return the re-selected account. The requested tier string is
stored verbatim. -/
def handle_subscription (db : DB) (today uid : Nat) (tier : String)
    (d : PaymentDetails) : DB × Except ApiError Account :=
  match findUserById db uid with
  | none => (db, .error .userNotFound)
  | some _user =>
    let db1 := { db with
      users := subUpdateUsers uid tier (today + 30) (generations_map tier)
                 db.users }
    let db2 := { db1 with
      payments := db1.payments ++ [mkPayment db uid tier d],
      next_payment_id := db1.next_payment_id + 1,
      next_txn := db1.next_txn + 1 }
    match findUserById db2 uid with
    | none => (db2, .error .userNotFound)
    | some updated => (db2, .ok updated)

/-- View of a joined `audio_history` row returned by `get_user_history`. -/
structure HistoryEntry where
  id : Nat
  text_input : String
  voice_name : String
  audio_file_path : String
  settings : Settings
deriving DecidableEq, Repr

/-- Embedding of `get_user_history` (src/app.py lines 475-489):
authenticate (with the Basic quota check), then return the caller's
history rows joined with the voice names. `ORDER BY generated_at DESC`
is modelled as reverse insertion order. -/
def get_user_history (db : DB) (user_api_key : String) :
    Except ApiError (List HistoryEntry) :=
  match get_current_user_by_api_key db user_api_key with
  | .error e => .error e
  | .ok user =>
    .ok (((db.audio_history.filter (fun r => r.user_id == user.id)).filterMap
      (fun r =>
        (db.voices.find? (fun v => v.id == r.voice_id)).map (fun v =>
          { id := r.id, text_input := r.text_input,
            voice_name := v.voice_name,
            audio_file_path := r.audio_file_path,
            settings := r.settings }))).reverse)

/-- Iterated `/tts/generate` requests with a fixed request body and an
always-succeeding synthesis collaborator. -/
def genIter (db : DB) (req : TTSRequest) (fname : String) : Nat → DB
  | 0 => db
  | m + 1 => (generate_speech (genIter db req fname m) req (.ok fname)).1

/-- One DML statement of the subscription transaction. -/
inductive SubWrite where
  | updateUser (uid : Nat) (tier : String) (expiry : Nat) (allowance : Int)
  | insertPayment (p : Payment)
deriving DecidableEq, Repr

/-- Effect of one buffered DML statement on the store. -/
def applySubWrite (db : DB) : SubWrite → DB
  | .updateUser uid tier expiry allowance =>
    { db with users := subUpdateUsers uid tier expiry allowance db.users }
  | .insertPayment p =>
    { db with payments := db.payments ++ [p],
              next_payment_id := db.next_payment_id + 1,
              next_txn := db.next_txn + 1 }

/-- Commit a list of transactions, each a list of buffered statements;
sqlite applies a transaction's statements on `conn.commit()`. -/
def commitTxns (db : DB) (txns : List (List SubWrite)) : DB :=
  txns.foldl (fun d t => t.foldl applySubWrite d) db

/-- Persisted state when execution stops (connection closed, process
crash) after only the first `k` transactions committed: sqlite rolls an
uncommitted transaction back, so exactly a prefix of the transactions is
applied. -/
def crashAt (db : DB) (txns : List (List SubWrite)) (k : Nat) : DB :=
  commitTxns db (txns.take k)

/-- The transaction structure of `handle_subscription`: after the
account is found, both DML statements run on one connection followed by
a single `conn.commit()` (src/app.py lines 457-468), hence one
transaction holding both writes; nothing is written when the account is
absent. -/
def subscription_txns (db : DB) (today uid : Nat) (tier : String)
    (d : PaymentDetails) : List (List SubWrite) :=
  match findUserById db uid with
  | none => []
  | some _user =>
    [[SubWrite.updateUser uid tier (today + 30) (generations_map tier),
      SubWrite.insertPayment (mkPayment db uid tier d)]]

/-- The five preset voices seeded by `init_db` (src/app.py lines 94-111);
autoincrement gives them ids 1 through 5, `user_id` is NULL. -/
def default_voices : List Voice :=
  [{ id := 1, user_id := none, voice_name := "Nova (Neutral Male)",
     voice_type := "preset", voice_params := "tts_engine_voice_id=0",
     language := "en-US", accent := "default",
     emotion_support := ["neutral", "happy", "sad"], sample_path := none },
   { id := 2, user_id := none, voice_name := "Stella (Neutral Female)",
     voice_type := "preset", voice_params := "tts_engine_voice_id=1",
     language := "en-US", accent := "default",
     emotion_support := ["neutral", "happy", "sad"], sample_path := none },
   { id := 3, user_id := none, voice_name := "Orion (Deep Male)",
     voice_type := "preset", voice_params := "tts_engine_voice_id=0;pitch_modifier=-5",
     language := "en-US", accent := "default",
     emotion_support := ["neutral", "serious"], sample_path := none },
   { id := 4, user_id := none, voice_name := "Lyra (Bright Female)",
     voice_type := "preset", voice_params := "tts_engine_voice_id=1;pitch_modifier=5",
     language := "en-US", accent := "default",
     emotion_support := ["neutral", "excited"], sample_path := none },
   { id := 5, user_id := none, voice_name := "Echo (Multilingual Placeholder)",
     voice_type := "preset", voice_params := "tts_engine_voice_id=0",
     language := "mul", accent := "various",
     emotion_support := ["neutral"], sample_path := none }]

/-- The empty store (fresh database file, autoincrement counters at 1). -/
def emptyDB : DB :=
  { users := [], voices := [], audio_history := [], payments := [],
    next_user_id := 1, next_voice_id := 1, next_history_id := 1,
    next_payment_id := 1, next_txn := 0 }

/-- Embedding of `init_db` seeding: insert the presets exactly when no
row with `voice_type = 'preset'` exists. -/
def init_db (db : DB) : DB :=
  if db.voices.any (fun v => v.voice_type == "preset") then db
  else { db with voices := db.voices ++ default_voices,
                 next_voice_id := db.next_voice_id + default_voices.length }

/-!
Helper lemmas.
-/

/-- A row transformation that does not change the value of the lookup
predicate commutes with the first-match lookup. -/
lemma find?_map_congr {α : Type} (f : α → α) (p : α → Bool)
    (hf : ∀ x, p (f x) = p x) (l : List α) :
    (l.map f).find? p = (l.find? p).map f := by
  induction l with
  | nil => rfl
  | cons a t ih =>
    simp only [List.map_cons, List.find?, hf a]
    cases h : p a
    · simpa [h] using ih
    · simp [h]

lemma decOne_api_key (uid : Nat) (x : Account) :
    (decOne uid x).api_key = x.api_key := by
  unfold decOne; split <;> rfl

lemma decOne_id (uid : Nat) (x : Account) :
    (decOne uid x).id = x.id := by
  unfold decOne; split <;> rfl

lemma decOne_tier (uid : Nat) (x : Account) :
    (decOne uid x).subscription_tier = x.subscription_tier := by
  unfold decOne; split <;> rfl

lemma subUpdateOne_id (uid : Nat) (tier : String) (expiry : Nat)
    (allowance : Int) (u : Account) :
    (subUpdateOne uid tier expiry allowance u).id = u.id := by
  unfold subUpdateOne; split <;> rfl

lemma find?_decUsers (uid : Nat) (k : String) (l : List Account) :
    (decUsers uid l).find? (fun u => u.api_key == k)
      = (l.find? (fun u => u.api_key == k)).map (decOne uid) := by
  unfold decUsers
  exact find?_map_congr _ _ (fun x => by rw [decOne_api_key]) l

lemma find?_subUpdateUsers (uid : Nat) (tier : String) (expiry : Nat)
    (allowance : Int) (uid' : Nat) (l : List Account) :
    (subUpdateUsers uid tier expiry allowance l).find? (fun u => u.id == uid')
      = (l.find? (fun u => u.id == uid')).map
          (subUpdateOne uid tier expiry allowance) := by
  unfold subUpdateUsers
  exact find?_map_congr _ _ (fun x => by rw [subUpdateOne_id]) l


lemma get_current_user_ok (db : DB) (k : String) (u : Account)
    (hu : findUserByKey db k = some u)
    (hcond : ¬(u.subscription_tier = "Basic" ∧ u.daily_generations_left ≤ 0)) :
    get_current_user_by_api_key db k = .ok u := by
  unfold get_current_user_by_api_key
  rw [hu]
  show (if u.subscription_tier = "Basic" ∧ u.daily_generations_left ≤ 0 then
      Except.error ApiError.quotaExhausted else Except.ok u) = Except.ok u
  exact if_neg hcond

lemma get_current_user_quota (db : DB) (k : String) (u : Account)
    (hu : findUserByKey db k = some u)
    (htier : u.subscription_tier = "Basic")
    (hz : u.daily_generations_left ≤ 0) :
    get_current_user_by_api_key db k = .error .quotaExhausted := by
  unfold get_current_user_by_api_key
  rw [hu]
  show (if u.subscription_tier = "Basic" ∧ u.daily_generations_left ≤ 0 then
      Except.error ApiError.quotaExhausted else Except.ok u)
    = Except.error ApiError.quotaExhausted
  exact if_pos ⟨htier, hz⟩

lemma generate_speech_basic_step (db : DB) (req : TTSRequest) (fname : String)
    (u : Account)
    (hu : findUserByKey db req.user_api_key = some u)
    (htier : u.subscription_tier = "Basic")
    (hpos : 0 < u.daily_generations_left)
    (hv : (db.voices.find? (fun v => v.id == req.voice_id)).isSome) :
    (generate_speech db req (.ok fname)).2 = .ok fname ∧
    (generate_speech db req (.ok fname)).1.voices = db.voices ∧
    (generate_speech db req (.ok fname)).1.audio_history
      = db.audio_history
        ++ [{ id := db.next_history_id, user_id := u.id, text_input := req.text,
              voice_id := req.voice_id, audio_file_path := fname,
              settings := { speed := req.speed, pitch := req.pitch,
                            emotion := req.emotion } }] ∧
    findUserByKey (generate_speech db req (.ok fname)).1 req.user_api_key
      = some { u with daily_generations_left := u.daily_generations_left - 1 } := by
  obtain ⟨v, hv'⟩ := Option.isSome_iff_exists.mp hv
  have hcond : ¬(u.subscription_tier = "Basic" ∧ u.daily_generations_left ≤ 0) := by
    rintro ⟨-, h2⟩; omega
  have hok := get_current_user_ok db req.user_api_key u hu hcond
  simp only [generate_speech, hok, hv', if_pos htier]
  refine ⟨trivial, trivial, trivial, ?_⟩
  show (decUsers u.id db.users).find? (fun x => x.api_key == req.user_api_key) = _
  rw [find?_decUsers]
  unfold findUserByKey at hu
  rw [hu]
  simp only [Option.map_some']
  unfold decOne
  rw [if_pos (by simp)]

lemma generate_speech_exhausted (db : DB) (req : TTSRequest)
    (synth : Except String String) (u : Account)
    (hu : findUserByKey db req.user_api_key = some u)
    (htier : u.subscription_tier = "Basic")
    (hz : u.daily_generations_left ≤ 0) :
    generate_speech db req synth = (db, .error .quotaExhausted) := by
  have hq := get_current_user_quota db req.user_api_key u hu htier hz
  simp only [generate_speech, hq]

lemma genIter_basic_state (db : DB) (req : TTSRequest) (fname : String)
    (u : Account) (n : Nat)
    (hu : findUserByKey db req.user_api_key = some u)
    (htier : u.subscription_tier = "Basic")
    (hn : u.daily_generations_left = (n : Int))
    (hv : (db.voices.find? (fun v => v.id == req.voice_id)).isSome) :
    ∀ m, (genIter db req fname m).voices = db.voices ∧
      findUserByKey (genIter db req fname m) req.user_api_key
        = some { u with daily_generations_left := ((n - m : Nat) : Int) } := by
  intro m
  induction m with
  | zero =>
    refine ⟨rfl, ?_⟩
    show findUserByKey db req.user_api_key = _
    rw [hu]
    congr 1
    rw [Nat.sub_zero, ← hn]
  | succ m ih =>
    obtain ⟨ihv, ihf⟩ := ih
    by_cases hm : m < n
    · have hstep := generate_speech_basic_step (genIter db req fname m) req fname
        { u with daily_generations_left := ((n - m : Nat) : Int) } ihf htier
        (by simp; omega) (ihv ▸ hv)
      refine ⟨by rw [genIter]; rw [hstep.2.1, ihv], ?_⟩
      rw [genIter, hstep.2.2.2]
      congr 1
      simp only
      congr 1
      omega
    · have hz : ((n - m : Nat) : Int) ≤ 0 := by omega
      have hstep := generate_speech_exhausted (genIter db req fname m) req
        (.ok fname) { u with daily_generations_left := ((n - m : Nat) : Int) }
        ihf htier hz
      rw [genIter, hstep]
      refine ⟨ihv, ?_⟩
      rw [ihf]
      congr 2
      omega

lemma generate_speech_nonbasic (db : DB) (req : TTSRequest) (fname : String)
    (u : Account)
    (hu : findUserByKey db req.user_api_key = some u)
    (ht : u.subscription_tier ≠ "Basic")
    (hv : (db.voices.find? (fun v => v.id == req.voice_id)).isSome) :
    (generate_speech db req (.ok fname)).2 = .ok fname ∧
    (generate_speech db req (.ok fname)).1.users = db.users ∧
    (generate_speech db req (.ok fname)).1.voices = db.voices := by
  obtain ⟨v, hv'⟩ := Option.isSome_iff_exists.mp hv
  have hcond : ¬(u.subscription_tier = "Basic" ∧ u.daily_generations_left ≤ 0) := by
    rintro ⟨h1, -⟩; exact ht h1
  have hok := get_current_user_ok db req.user_api_key u hu hcond
  simp only [generate_speech, hok, hv', if_neg ht]
  exact ⟨trivial, trivial, trivial⟩

lemma genIter_nonbasic (db : DB) (req : TTSRequest) (fname : String)
    (u : Account)
    (hu : findUserByKey db req.user_api_key = some u)
    (ht : u.subscription_tier ≠ "Basic")
    (hv : (db.voices.find? (fun v => v.id == req.voice_id)).isSome) :
    ∀ m, (genIter db req fname m).users = db.users ∧
      (genIter db req fname m).voices = db.voices := by
  intro m
  induction m with
  | zero => exact ⟨rfl, rfl⟩
  | succ m ih =>
    obtain ⟨ihu, ihv⟩ := ih
    have hu' : findUserByKey (genIter db req fname m) req.user_api_key = some u := by
      unfold findUserByKey at hu ⊢; rw [ihu]; exact hu
    have hstep := generate_speech_nonbasic (genIter db req fname m) req fname u
      hu' ht (ihv ▸ hv)
    rw [genIter, hstep.2.1, hstep.2.2]
    exact ⟨ihu, ihv⟩

/-- The invariant that a row's allowance is non-negative whenever its
tier is Basic. -/
def quotaOK (x : Account) : Prop :=
  x.subscription_tier = "Basic" → 0 ≤ x.daily_generations_left

instance (x : Account) : Decidable (quotaOK x) :=
  show Decidable (x.subscription_tier = "Basic" →
    0 ≤ x.daily_generations_left) from inferInstance

lemma decUsers_map_id (uid : Nat) (l : List Account) :
    (decUsers uid l).map (fun x => x.id) = l.map (fun x => x.id) := by
  unfold decUsers
  rw [List.map_map]
  exact List.map_congr_left (fun x _ => decOne_id uid x)

lemma generate_speech_preserves_quota (db : DB) (req : TTSRequest)
    (synth : Except String String)
    (hids : (db.users.map (fun x => x.id)).Nodup)
    (hall : ∀ x ∈ db.users, quotaOK x) :
    (∀ x ∈ (generate_speech db req synth).1.users, quotaOK x) ∧
    ((generate_speech db req synth).1.users.map (fun x => x.id)).Nodup := by
  unfold generate_speech
  cases hg : get_current_user_by_api_key db req.user_api_key with
  | error e => exact ⟨hall, hids⟩
  | ok u =>
    cases hfv : db.voices.find? (fun v => v.id == req.voice_id) with
    | none => exact ⟨hall, hids⟩
    | some v =>
      have hmem : u ∈ db.users ∧ ¬(u.subscription_tier = "Basic" ∧
          u.daily_generations_left ≤ 0) := by
        unfold get_current_user_by_api_key at hg
        cases hfu : findUserByKey db req.user_api_key with
        | none => rw [hfu] at hg; exact absurd hg (by simp)
        | some w =>
          rw [hfu] at hg
          by_cases hc : w.subscription_tier = "Basic" ∧ w.daily_generations_left ≤ 0
          · simp only [if_pos hc] at hg
            exact absurd hg (by simp)
          · simp only [if_neg hc, Except.ok.injEq] at hg
            subst hg
            exact ⟨List.mem_of_find?_eq_some hfu, hc⟩
      have hdec : (∀ x ∈ decUsers u.id db.users, quotaOK x) ∧
          ((decUsers u.id db.users).map (fun x => x.id)).Nodup := by
        constructor
        · intro x hx
          obtain ⟨y, hy, hxy⟩ := List.mem_map.mp hx
          subst hxy
          by_cases hid : (y.id == u.id) = true
          · have hyu : y = u :=
              List.inj_on_of_nodup_map hids hy hmem.1 (by simpa using hid)
            subst hyu
            unfold decOne
            rw [if_pos hid]
            intro hbt
            have hbt' : y.subscription_tier = "Basic" := hbt
            have hpos : ¬(y.daily_generations_left ≤ 0) :=
              fun hle => hmem.2 ⟨hbt', hle⟩
            show (0 : Int) ≤ y.daily_generations_left - 1
            omega
          · unfold decOne
            rw [if_neg hid]
            exact hall y hy
        · rw [decUsers_map_id]; exact hids
      cases synth with
      | error msg =>
        by_cases hb : u.subscription_tier = "Basic"
        · simp only [if_pos hb]
          exact hdec
        · simp only [if_neg hb]
          exact ⟨hall, hids⟩
      | ok filepath =>
        by_cases hb : u.subscription_tier = "Basic"
        · simp only [if_pos hb]
          exact hdec
        · simp only [if_neg hb]
          exact ⟨hall, hids⟩

/-- Run a sequence of `/tts/generate` requests, each with its own body
and synthesis outcome, threading the store. -/
def runReqs (db : DB) : List (TTSRequest × Except String String) → DB
  | [] => db
  | (r, s) :: rest => runReqs (generate_speech db r s).1 rest

lemma runReqs_preserves_quota (reqs : List (TTSRequest × Except String String)) :
    ∀ db : DB, (db.users.map (fun x => x.id)).Nodup →
      (∀ x ∈ db.users, quotaOK x) →
      ∀ x ∈ (runReqs db reqs).users, quotaOK x := by
  induction reqs with
  | nil => intro db _ hall; exact hall
  | cons p rest ih =>
    intro db hids hall
    obtain ⟨r, s⟩ := p
    have h := generate_speech_preserves_quota db r s hids hall
    exact ih (generate_speech db r s).1 h.2 h.1

lemma handle_subscription_found (db : DB) (today uid : Nat) (tier : String)
    (d : PaymentDetails) (u0 : Account)
    (hu : findUserById db uid = some u0) :
    (handle_subscription db today uid tier d).1.users
      = subUpdateUsers uid tier (today + 30) (generations_map tier) db.users ∧
    (handle_subscription db today uid tier d).1.payments
      = db.payments ++ [mkPayment db uid tier d] ∧
    (handle_subscription db today uid tier d).1.voices = db.voices ∧
    (handle_subscription db today uid tier d).1.audio_history
      = db.audio_history ∧
    (handle_subscription db today uid tier d).1.next_user_id
      = db.next_user_id ∧
    (handle_subscription db today uid tier d).1.next_voice_id
      = db.next_voice_id ∧
    (handle_subscription db today uid tier d).1.next_history_id
      = db.next_history_id ∧
    (handle_subscription db today uid tier d).1.next_payment_id
      = db.next_payment_id + 1 ∧
    (handle_subscription db today uid tier d).1.next_txn = db.next_txn + 1 ∧
    (handle_subscription db today uid tier d).2
      = .ok (subUpdateOne uid tier (today + 30) (generations_map tier) u0) := by
  have hfind2 : (subUpdateUsers uid tier (today + 30) (generations_map tier)
      db.users).find? (fun x => x.id == uid)
      = some (subUpdateOne uid tier (today + 30) (generations_map tier) u0) := by
    rw [find?_subUpdateUsers]
    unfold findUserById at hu
    rw [hu]
    rfl
  have hu' : db.users.find? (fun u => u.id == uid) = some u0 := hu
  simp only [handle_subscription, findUserById, hu', hfind2]
  exact ⟨trivial, trivial, trivial, trivial, trivial, trivial, trivial,
    trivial, trivial, trivial⟩

lemma handle_subscription_missing (db : DB) (today uid : Nat) (tier : String)
    (d : PaymentDetails)
    (hu : findUserById db uid = none) :
    handle_subscription db today uid tier d = (db, .error .userNotFound) := by
  simp only [handle_subscription, hu]

/-!
Concrete fixtures used by the closed witnesses and counterexamples.
-/

/-- A Basic-tier account with 2 generations left. -/
def exBasicUser : Account :=
  { id := 1, username := "alice", email := "alice@example.com",
    password_hash := "h1", subscription_tier := "Basic",
    subscription_expiry := none, api_key := "key-basic",
    daily_generations_left := 2 }

/-- A Basic-tier account whose allowance is exhausted. -/
def exExhaustedUser : Account :=
  { id := 2, username := "bob", email := "bob@example.com",
    password_hash := "h2", subscription_tier := "Basic",
    subscription_expiry := none, api_key := "key-zero",
    daily_generations_left := 0 }

/-- A Premium-tier account. -/
def exPremiumUser : Account :=
  { id := 3, username := "carol", email := "carol@example.com",
    password_hash := "h3", subscription_tier := "Premium",
    subscription_expiry := some 100, api_key := "key-prem",
    daily_generations_left := 100 }

/-- An account holding an unrecognized tier string. -/
def exGoldUser : Account :=
  { id := 4, username := "dave", email := "dave@example.com",
    password_hash := "h4", subscription_tier := "Gold",
    subscription_expiry := some 100, api_key := "key-gold",
    daily_generations_left := 7 }

/-- A cloned voice owned by the Premium account. -/
def exClonedVoice : Voice :=
  { id := 6, user_id := some 3, voice_name := "carol-clone",
    voice_type := "cloned", voice_params := "cloned_from_sample=s.wav",
    language := "en-US", accent := "default",
    emotion_support := ["neutral"], sample_path := some "s.wav" }

/-- A pre-existing payment row (transaction id 2, below the supply). -/
def exPayment0 : Payment :=
  { id := 1, user_id := 3, tier := "Premium", amount := (999 : Rat) / 100,
    payment_method := "Simulated Card **** 4242", transaction_id := 2 }

/-- A populated store: four accounts, the seeded presets plus one cloned
voice, one payment row. -/
def exDB : DB :=
  { users := [exBasicUser, exExhaustedUser, exPremiumUser, exGoldUser],
    voices := default_voices ++ [exClonedVoice],
    audio_history := [], payments := [exPayment0],
    next_user_id := 5, next_voice_id := 7, next_history_id := 1,
    next_payment_id := 2, next_txn := 3 }

/-- A generation request by the Basic account against preset voice 1. -/
def exReq : TTSRequest :=
  { text := "hello", voice_id := 1, user_api_key := "key-basic",
    speed := 1, pitch := 1, emotion := "neutral" }

/-!
Claim theorems.
-/

/-- C1, counterexample to the claim as stated. The claim asserts that a
generation request whose synthesis step fails leaves a Basic-tier
account's `daily_generations_left` unchanged. On the concrete store
`exDB`, the Basic account `alice` (allowance 2) issues `exReq` and the
synthesis collaborator fails; the handler surfaces the synthesis
failure, yet the persisted allowance is 1, not 2: the decrement at
src/app.py lines 321-323 is committed before the synthesis attempt. -/
theorem c1_counterexample :
    (generate_speech exDB exReq (.error "boom")).2
        = .error (.synthesisFailed "boom") ∧
    findUserByKey exDB "key-basic" = some exBasicUser ∧
    exBasicUser.subscription_tier = "Basic" ∧
    exBasicUser.daily_generations_left = 2 ∧
    (findUserByKey (generate_speech exDB exReq (.error "boom")).1
        "key-basic").map (fun x => x.daily_generations_left) = some 1 := by
  refine ⟨rfl, rfl, rfl, rfl, rfl⟩

/-- C1, amended: in the generate-speech flow, when the external
synthesis step fails, the request surfaces the synthesis failure and
appends no GenerationRecord, but quota is consumed anyway: an
authorized Basic-tier account's `daily_generations_left` is decremented
by 1, because the decrement is committed before the synthesis attempt. -/
theorem c1_theorem (db : DB) (req : TTSRequest) (msg : String) (u : Account)
    (hu : findUserByKey db req.user_api_key = some u)
    (htier : u.subscription_tier = "Basic")
    (hpos : 0 < u.daily_generations_left)
    (hv : (db.voices.find? (fun v => v.id == req.voice_id)).isSome) :
    (generate_speech db req (.error msg)).2 = .error (.synthesisFailed msg) ∧
    (generate_speech db req (.error msg)).1.audio_history = db.audio_history ∧
    findUserByKey (generate_speech db req (.error msg)).1 req.user_api_key
      = some { u with
          daily_generations_left := u.daily_generations_left - 1 } := by
  obtain ⟨v, hv'⟩ := Option.isSome_iff_exists.mp hv
  have hcond : ¬(u.subscription_tier = "Basic" ∧
      u.daily_generations_left ≤ 0) := by
    rintro ⟨-, h2⟩; omega
  have hok := get_current_user_ok db req.user_api_key u hu hcond
  simp only [generate_speech, hok, hv', if_pos htier]
  refine ⟨trivial, trivial, ?_⟩
  show (decUsers u.id db.users).find? (fun x => x.api_key == req.user_api_key) = _
  rw [find?_decUsers]
  unfold findUserByKey at hu
  rw [hu]
  simp only [Option.map_some']
  unfold decOne
  rw [if_pos (by simp)]

/-- C1, witness: the amended theorem evaluated on the concrete store
`exDB` for the Basic account `alice`. -/
theorem c1_witness :
    (generate_speech exDB exReq (.error "boom")).2
        = .error (.synthesisFailed "boom") ∧
    (generate_speech exDB exReq (.error "boom")).1.audio_history
        = exDB.audio_history ∧
    findUserByKey (generate_speech exDB exReq (.error "boom")).1
        exReq.user_api_key
      = some { exBasicUser with
          daily_generations_left :=
            exBasicUser.daily_generations_left - 1 } :=
  c1_theorem exDB exReq "boom" exBasicUser (by decide) (by decide)
    (by decide) (by decide)

/-- C2: for every Basic-tier account reachable by its api key, with
`daily_generations_left = n ≥ 1` and an existing target voice:
(i) each of the first `n` generation requests succeeds;
(ii) after those `n` generations the allowance is exactly 0;
(iii) the next authorize (`get_current_user_by_api_key`) fails with the
quota-exhausted error;
(iv) the allowance never goes below 0 at any point of the iteration;
(v) more generally, no sequence of generation requests whatsoever (any
bodies, any synthesis outcomes) drives any Basic-tier row of a
well-formed store below 0. -/
theorem c2_theorem (db : DB) (req : TTSRequest) (fname : String)
    (u : Account) (n : Nat)
    (hu : findUserByKey db req.user_api_key = some u)
    (htier : u.subscription_tier = "Basic")
    (hn : u.daily_generations_left = (n : Int))
    (_hn1 : 1 ≤ n)
    (hv : (db.voices.find? (fun v => v.id == req.voice_id)).isSome)
    (hids : (db.users.map (fun x => x.id)).Nodup)
    (hq : ∀ x ∈ db.users, quotaOK x) :
    (∀ m, m < n →
      (generate_speech (genIter db req fname m) req (.ok fname)).2 = .ok fname) ∧
    (findUserByKey (genIter db req fname n) req.user_api_key).map
        (fun x => x.daily_generations_left) = some 0 ∧
    get_current_user_by_api_key (genIter db req fname n) req.user_api_key
      = .error .quotaExhausted ∧
    (∀ m x, findUserByKey (genIter db req fname m) req.user_api_key = some x →
      0 ≤ x.daily_generations_left) ∧
    (∀ reqs x, x ∈ (runReqs db reqs).users → x.subscription_tier = "Basic" →
      0 ≤ x.daily_generations_left) := by
  have hstate := genIter_basic_state db req fname u n hu htier hn hv
  refine ⟨?_, ?_, ?_, ?_, ?_⟩
  · intro m hm
    have h := hstate m
    exact (generate_speech_basic_step (genIter db req fname m) req fname
      { u with daily_generations_left := ((n - m : Nat) : Int) }
      h.2 htier (by simp; omega) (h.1 ▸ hv)).1
  · rw [(hstate n).2]
    simp
  · exact get_current_user_quota _ _ _ (hstate n).2 htier (by simp)
  · intro m x hx
    rw [(hstate m).2] at hx
    simp only [Option.some.injEq] at hx
    subst hx
    simp
  · intro reqs x hx hbx
    exact runReqs_preserves_quota reqs db hids hq x hx hbx

/-- C2, witness: the theorem evaluated on the concrete store `exDB` for
the Basic account `alice` with allowance `n = 2`. -/
theorem c2_witness :
    (∀ m, m < 2 →
      (generate_speech (genIter exDB exReq "f.wav" m) exReq
        (.ok "f.wav")).2 = .ok "f.wav") ∧
    (findUserByKey (genIter exDB exReq "f.wav" 2) exReq.user_api_key).map
        (fun x => x.daily_generations_left) = some 0 ∧
    get_current_user_by_api_key (genIter exDB exReq "f.wav" 2)
        exReq.user_api_key = .error .quotaExhausted ∧
    (∀ m x, findUserByKey (genIter exDB exReq "f.wav" m) exReq.user_api_key
        = some x → 0 ≤ x.daily_generations_left) ∧
    (∀ reqs x, x ∈ (runReqs exDB reqs).users → x.subscription_tier = "Basic" →
      0 ≤ x.daily_generations_left) :=
  c2_theorem exDB exReq "f.wav" exBasicUser 2 (by decide) (by decide)
    (by decide) (by decide) (by decide) (by decide) (by decide)

/-- C3: on any store whose preset voices are unowned (the data-model
invariant: presets are seeded with NULL `user_id`, and rows of other
kinds are only ever inserted with an owner), and whose account ids are
the positive sqlite rowids:
(i) `list_voices` with no token returns exactly the preset voices;
(ii) none of these is privately owned;
(iii) `list_voices` with a token resolving to no account likewise
returns exactly the presets (the call never fails — it is total);
(iv) with a valid token of account `u`, the result contains a voice
exactly when it is a preset or a cloned/designed voice owned by `u`,
and it never contains a voice owned by a different account. -/
theorem c3_theorem (db : DB)
    (hpre : ∀ v ∈ db.voices, v.voice_type = "preset" → v.user_id = none) :
    (list_voices db none
      = db.voices.filter (fun v => v.voice_type == "preset")) ∧
    (∀ v ∈ list_voices db none, v.user_id = none) ∧
    (∀ k, findUserByKey db k = none →
      list_voices db (some k)
        = db.voices.filter (fun v => v.voice_type == "preset")) ∧
    (∀ k u, k ≠ "" → findUserByKey db k = some u → u.id ≠ 0 →
      ((∀ v, v ∈ list_voices db (some k) ↔ v ∈ db.voices ∧
          (v.voice_type = "preset" ∨ (v.user_id = some u.id ∧
            (v.voice_type = "cloned" ∨ v.voice_type = "designed")))) ∧
       (∀ v ∈ list_voices db (some k), ∀ b, v.user_id = some b →
          b = u.id))) := by
  refine ⟨rfl, ?_, ?_, ?_⟩
  · intro v hv
    have hv' := List.mem_filter.mp hv
    exact hpre v hv'.1 (by simpa using hv'.2)
  · intro k hk
    unfold list_voices
    by_cases hke : k = ""
    · simp only [if_pos hke]
    · simp only [if_neg hke, hk]
  · intro k u hke hk hid
    have hshape : list_voices db (some k)
        = db.voices.filter (fun v =>
            v.voice_type == "preset" ||
              (v.user_id == some u.id &&
                (v.voice_type == "cloned" || v.voice_type == "designed"))) := by
      unfold list_voices
      simp only [if_neg hke, hk, if_pos hid]
    constructor
    · intro v
      rw [hshape, List.mem_filter]
      constructor
      · rintro ⟨hv, hp⟩
        refine ⟨hv, ?_⟩
        simp only [Bool.or_eq_true, Bool.and_eq_true, beq_iff_eq] at hp
        tauto
      · rintro ⟨hv, hp⟩
        refine ⟨hv, ?_⟩
        simp only [Bool.or_eq_true, Bool.and_eq_true, beq_iff_eq]
        tauto
    · intro v hv b hb
      rw [hshape, List.mem_filter] at hv
      obtain ⟨hvm, hp⟩ := hv
      simp only [Bool.or_eq_true, Bool.and_eq_true, beq_iff_eq] at hp
      rcases hp with hp | hp
      · have := hpre v hvm hp
        rw [this] at hb
        exact absurd hb (by simp)
      · rw [hp.1] at hb
        exact (Option.some.injEq _ _ ▸ hb).symm ▸ rfl

/-- C3, witness: the theorem evaluated on the concrete store `exDB`,
whose presets are the five seeded voices and which holds one cloned
voice owned by the Premium account `carol`. -/
theorem c3_witness :
    (list_voices exDB none
      = exDB.voices.filter (fun v => v.voice_type == "preset")) ∧
    (∀ v ∈ list_voices exDB none, v.user_id = none) ∧
    (∀ k, findUserByKey exDB k = none →
      list_voices exDB (some k)
        = exDB.voices.filter (fun v => v.voice_type == "preset")) ∧
    (∀ k u, k ≠ "" → findUserByKey exDB k = some u → u.id ≠ 0 →
      ((∀ v, v ∈ list_voices exDB (some k) ↔ v ∈ exDB.voices ∧
          (v.voice_type = "preset" ∨ (v.user_id = some u.id ∧
            (v.voice_type = "cloned" ∨ v.voice_type = "designed")))) ∧
       (∀ v ∈ list_voices exDB (some k), ∀ b, v.user_id = some b →
          b = u.id))) :=
  c3_theorem exDB (by decide)

/-- C4: on an existing account, `handle_subscription` sets the
account's tier verbatim, its expiry to today plus 30 days, and its
allowance from the table Basic→10, Premium→100, Ultimate→1000 with
default 10; it appends exactly one payments row whose amount comes from
the table Basic→0, Premium→9.99, Ultimate→29.99 with default 0, whose
method is the masked card string and whose transaction id is fresh
(differs from every prior one, by the fresh-supply invariant); and it
fails with the user-not-found error when the account does not exist,
leaving the store unchanged. -/
theorem c4_theorem (db : DB) (today uid : Nat) (tier : String)
    (d : PaymentDetails) (u0 : Account)
    (hu : findUserById db uid = some u0)
    (hfresh : ∀ p ∈ db.payments, p.transaction_id < db.next_txn) :
    ((handle_subscription db today uid tier d).1.users.find?
        (fun x => x.id == uid)).map (fun x =>
          (x.subscription_tier, x.subscription_expiry,
           x.daily_generations_left))
      = some (tier, some (today + 30),
          if tier = "Basic" then 10 else if tier = "Premium" then 100
          else if tier = "Ultimate" then 1000 else 10) ∧
    (handle_subscription db today uid tier d).1.payments
      = db.payments ++
          [{ id := db.next_payment_id, user_id := uid, tier := tier,
             amount := if tier = "Basic" then 0
               else if tier = "Premium" then (999 : Rat) / 100
               else if tier = "Ultimate" then (2999 : Rat) / 100 else 0,
             payment_method :=
               "Simulated Card **** " ++ pyLast4 (d.card_number.getD "0000"),
             transaction_id := db.next_txn }] ∧
    (∀ p ∈ db.payments, p.transaction_id ≠ db.next_txn) ∧
    (∀ uid', findUserById db uid' = none →
      handle_subscription db today uid' tier d = (db, .error .userNotFound)) := by
  obtain ⟨husers, hpay, -⟩ :=
    handle_subscription_found db today uid tier d u0 hu
  have hu' : db.users.find? (fun u => u.id == uid) = some u0 := hu
  have hbeq : (u0.id == uid) = true :=
    @List.find?_some Account (fun u => u.id == uid) u0 db.users hu'
  refine ⟨?_, ?_, ?_, ?_⟩
  · rw [husers, find?_subUpdateUsers, hu']
    simp only [Option.map_some']
    unfold subUpdateOne
    rw [if_pos hbeq]
    rfl
  · rw [hpay]
    rfl
  · intro p hp
    exact Nat.ne_of_lt (hfresh p hp)
  · intro uid' hnone
    exact handle_subscription_missing db today uid' tier d hnone

/-- C4, witness: the theorem evaluated on the concrete store `exDB`,
moving the Basic account `alice` (id 1) to Premium on day 500. -/
theorem c4_witness :
    ((handle_subscription exDB 500 1 "Premium"
        { card_number := some "4242424242424242", expiry := some "12/30",
          cvv := some "123" }).1.users.find?
        (fun x => x.id == 1)).map (fun x =>
          (x.subscription_tier, x.subscription_expiry,
           x.daily_generations_left))
      = some ("Premium", some 530, 100) ∧
    (handle_subscription exDB 500 1 "Premium"
        { card_number := some "4242424242424242", expiry := some "12/30",
          cvv := some "123" }).1.payments
      = exDB.payments ++
          [{ id := 2, user_id := 1, tier := "Premium",
             amount := (999 : Rat) / 100,
             payment_method := "Simulated Card **** 4242",
             transaction_id := 3 }] ∧
    (∀ p ∈ exDB.payments, p.transaction_id ≠ exDB.next_txn) := by
  have h := c4_theorem exDB 500 1 "Premium"
    { card_number := some "4242424242424242", expiry := some "12/30",
      cvv := some "123" } exBasicUser (by decide) (by decide)
  refine ⟨?_, ?_, h.2.2.1⟩
  · rw [h.1]
    decide
  · rw [h.2.1]
    rfl

/-- C5: the Subscription Transition is atomic. Its transaction
structure (`subscription_txns`) holds both DML statements — the account
update and the payment insert — in one transaction committed by a
single `conn.commit()`; an execution that stops after any prefix of the
committed transactions leaves either the untouched store or the fully
updated one, never a partial state, and the full commit equals the
store produced by `handle_subscription`. -/
theorem c5_theorem (db : DB) (today uid : Nat) (tier : String)
    (d : PaymentDetails) :
    (∀ k, crashAt db (subscription_txns db today uid tier d) k = db ∨
      crashAt db (subscription_txns db today uid tier d) k
        = (handle_subscription db today uid tier d).1) ∧
    commitTxns db (subscription_txns db today uid tier d)
      = (handle_subscription db today uid tier d).1 := by
  cases hu : findUserById db uid with
  | none =>
    have htx : subscription_txns db today uid tier d = [] := by
      simp only [subscription_txns, hu]
    rw [handle_subscription_missing db today uid tier d hu, htx]
    constructor
    · intro k
      left
      cases k <;> rfl
    · rfl
  | some u0 =>
    have htx : subscription_txns db today uid tier d
        = [[SubWrite.updateUser uid tier (today + 30) (generations_map tier),
            SubWrite.insertPayment (mkPayment db uid tier d)]] := by
      simp only [subscription_txns, hu]
    obtain ⟨h1, h2, h3, h4, h5, h6, h7, h8, h9, -⟩ :=
      handle_subscription_found db today uid tier d u0 hu
    have hcommit : commitTxns db (subscription_txns db today uid tier d)
        = (handle_subscription db today uid tier d).1 := by
      rw [htx]
      ext1
      · rw [h1]; rfl
      · rw [h3]; rfl
      · rw [h4]; rfl
      · rw [h2]; rfl
      · rw [h5]; rfl
      · rw [h6]; rfl
      · rw [h7]; rfl
      · rw [h8]; rfl
      · rw [h9]; rfl
    refine ⟨?_, hcommit⟩
    intro k
    cases k with
    | zero =>
      left
      rfl
    | succ k =>
      right
      rw [← hcommit]
      unfold crashAt
      rw [htx]
      simp [List.take_succ_cons]

/-- C6: registering an account whose username or email equals that of
an existing account fails with the Conflict error and returns the store
unchanged — the existing account is unaffected and no row is added. -/
theorem c6_theorem (db : DB) (un em ph key : String) (u : Account)
    (hu : u ∈ db.users) (hdup : u.username = un ∨ u.email = em) :
    register_user db un em ph key = (db, .error .conflict) := by
  have hc : (db.users.any (fun x =>
      x.username == un || x.email == em || x.api_key == key)) = true := by
    rw [List.any_eq_true]
    refine ⟨u, hu, ?_⟩
    rcases hdup with h | h <;> simp [h]
  unfold register_user
  rw [if_pos hc]

/-- C6, witness: re-registering `alice`'s email on the concrete store
`exDB` is rejected with Conflict and the store is unchanged. -/
theorem c6_witness :
    register_user exDB "newuser" "alice@example.com" "ph" "key-new"
      = (exDB, .error .conflict) :=
  c6_theorem exDB "newuser" "alice@example.com" "ph" "key-new" exBasicUser
    (by decide) (by decide)

/-- C7: the persisted payment method is the masked card string keeping
only the last 4 digits. For any two payment-details values whose card
numbers agree on the last 4 digits, `handle_subscription` produces
identical results — store and response — so no persisted field depends
on the remaining digits; and every newly persisted payments row carries
exactly the masked method string. -/
theorem c7_theorem (db : DB) (today uid : Nat) (tier : String)
    (d1 d2 : PaymentDetails)
    (h4 : pyLast4 (d1.card_number.getD "0000")
        = pyLast4 (d2.card_number.getD "0000")) :
    handle_subscription db today uid tier d1
      = handle_subscription db today uid tier d2 ∧
    (∀ p, p ∈ (handle_subscription db today uid tier d1).1.payments →
      p ∉ db.payments →
      p.payment_method
        = "Simulated Card **** " ++ pyLast4 (d1.card_number.getD "0000")) := by
  have hmask : maskedMethod d1 = maskedMethod d2 := by
    unfold maskedMethod
    rw [h4]
  have hmk : mkPayment db uid tier d1 = mkPayment db uid tier d2 := by
    unfold mkPayment
    rw [hmask]
  constructor
  · unfold handle_subscription
    rw [hmk]
  · intro p hp hnp
    cases hu : findUserById db uid with
    | none =>
      rw [handle_subscription_missing db today uid tier d1 hu] at hp
      exact absurd hp hnp
    | some u0 =>
      obtain ⟨-, hpay, -⟩ :=
        handle_subscription_found db today uid tier d1 u0 hu
      rw [hpay] at hp
      rcases List.mem_append.mp hp with h | h
      · exact absurd h hnp
      · have hpm : p = mkPayment db uid tier d1 := by simpa using h
        rw [hpm]
        rfl

/-- C7, witness: two card numbers `4242424242424242` and `9999994242`
share the last four digits; the subscription results coincide and the
stored method string is the masked `4242` form. -/
theorem c7_witness :
    handle_subscription exDB 500 1 "Premium"
        { card_number := some "4242424242424242", expiry := some "12/30",
          cvv := some "123" }
      = handle_subscription exDB 500 1 "Premium"
        { card_number := some "9999994242", expiry := some "01/29",
          cvv := some "999" } ∧
    (∀ p, p ∈ (handle_subscription exDB 500 1 "Premium"
        { card_number := some "4242424242424242", expiry := some "12/30",
          cvv := some "123" }).1.payments →
      p ∉ exDB.payments →
      p.payment_method = "Simulated Card **** 4242") :=
  c7_theorem exDB 500 1 "Premium"
    { card_number := some "4242424242424242", expiry := some "12/30",
      cvv := some "123" }
    { card_number := some "9999994242", expiry := some "01/29",
      cvv := some "999" } (by rfl)

/-- C8, counterexample to the claim as stated. The claim asserts that
every cloning attempt by a Basic-tier account fails with the
tier-restriction error. On the concrete store `exDB`, the Basic
account `bob` has an exhausted allowance, and his cloning attempt fails
with the quota-exhausted error instead (the quota check in
`get_current_user_by_api_key` runs before the tier check), which is a
different error; no Voice row is created either way. -/
theorem c8_counterexample :
    findUserByKey exDB "key-zero" = some exExhaustedUser ∧
    exExhaustedUser.subscription_tier = "Basic" ∧
    clone_voice exDB "key-zero" "myvoice" "en-US" "default" "s2.wav"
      = (exDB, .error .quotaExhausted) ∧
    ApiError.quotaExhausted ≠ ApiError.tierRestriction := by
  refine ⟨rfl, rfl, rfl, by decide⟩

/-- C8, amended: a voice-cloning attempt by a Basic-tier account with
positive remaining allowance fails with the tier-restriction error;
with allowance at or below 0 it fails with the quota-exhausted error;
in both cases the store — in particular the set of Voice rows — is
unchanged. -/
theorem c8_theorem (db : DB) (k vn lang acc sp : String) (u : Account)
    (hu : findUserByKey db k = some u)
    (htier : u.subscription_tier = "Basic") :
    (0 < u.daily_generations_left →
      clone_voice db k vn lang acc sp = (db, .error .tierRestriction)) ∧
    (u.daily_generations_left ≤ 0 →
      clone_voice db k vn lang acc sp = (db, .error .quotaExhausted)) ∧
    (clone_voice db k vn lang acc sp).1.voices = db.voices := by
  have hA : 0 < u.daily_generations_left →
      clone_voice db k vn lang acc sp = (db, .error .tierRestriction) := by
    intro hpos
    have hcond : ¬(u.subscription_tier = "Basic" ∧
        u.daily_generations_left ≤ 0) := by
      rintro ⟨-, h2⟩; omega
    have hok := get_current_user_ok db k u hu hcond
    have hne : u.subscription_tier ≠ "Premium" ∧
        u.subscription_tier ≠ "Ultimate" := by
      rw [htier]; exact ⟨by decide, by decide⟩
    simp only [clone_voice, hok, if_pos hne]
  have hB : u.daily_generations_left ≤ 0 →
      clone_voice db k vn lang acc sp = (db, .error .quotaExhausted) := by
    intro hz
    have hq := get_current_user_quota db k u hu htier hz
    simp only [clone_voice, hq]
  refine ⟨hA, hB, ?_⟩
  by_cases hz : u.daily_generations_left ≤ 0
  · rw [hB hz]
  · rw [hA (by omega)]

/-- C8, witness: the amended theorem evaluated for the Basic account
`alice` (allowance 2) on the concrete store `exDB`. -/
theorem c8_witness :
    (0 < exBasicUser.daily_generations_left →
      clone_voice exDB "key-basic" "v" "en-US" "default" "s2.wav"
        = (exDB, .error .tierRestriction)) ∧
    (exBasicUser.daily_generations_left ≤ 0 →
      clone_voice exDB "key-basic" "v" "en-US" "default" "s2.wav"
        = (exDB, .error .quotaExhausted)) ∧
    (clone_voice exDB "key-basic" "v" "en-US" "default" "s2.wav").1.voices
      = exDB.voices :=
  c8_theorem exDB "key-basic" "v" "en-US" "default" "s2.wav" exBasicUser
    (by decide) (by decide)

/-- C9 (implicit): `handle_subscription` stores the requested tier
string verbatim, so an unrecognized name such as "Gold" becomes the
account's tier (with the default allowance 10); and since the quota
check and the decrement act only on accounts whose tier is exactly
"Basic", an account with any other tier string always authorizes and is
never decremented — any number of generations succeeds with the users
table unchanged. -/
theorem c9_theorem (db : DB) (today uid : Nat) (t : String)
    (d : PaymentDetails) (u0 : Account)
    (hfind : findUserById db uid = some u0)
    (ht1 : t ≠ "Basic") (ht2 : t ≠ "Premium") (ht3 : t ≠ "Ultimate") :
    ((handle_subscription db today uid t d).1.users.find?
        (fun x => x.id == uid)).map
        (fun x => (x.subscription_tier, x.daily_generations_left))
      = some (t, 10) ∧
    (∀ db2 k u, findUserByKey db2 k = some u →
      u.subscription_tier ≠ "Basic" →
      get_current_user_by_api_key db2 k = .ok u) ∧
    (∀ db2 req fname u, findUserByKey db2 req.user_api_key = some u →
      u.subscription_tier ≠ "Basic" →
      (db2.voices.find? (fun v => v.id == req.voice_id)).isSome →
      ∀ m, (genIter db2 req fname m).users = db2.users ∧
        (generate_speech (genIter db2 req fname m) req (.ok fname)).2
          = .ok fname) := by
  refine ⟨?_, ?_, ?_⟩
  · obtain ⟨husers, -⟩ := handle_subscription_found db today uid t d u0 hfind
    have hu' : db.users.find? (fun x => x.id == uid) = some u0 := hfind
    have hbeq : (u0.id == uid) = true :=
      @List.find?_some Account (fun x => x.id == uid) u0 db.users hu'
    rw [husers, find?_subUpdateUsers, hu']
    simp only [Option.map_some']
    unfold subUpdateOne
    rw [if_pos hbeq]
    show some (t, generations_map t) = some (t, 10)
    unfold generations_map
    rw [if_neg ht1, if_neg ht2, if_neg ht3]
  · intro db2 k u hu hnb
    exact get_current_user_ok db2 k u hu (by rintro ⟨h1, -⟩; exact hnb h1)
  · intro db2 req fname u hu hnb hvs m
    have hiter := genIter_nonbasic db2 req fname u hu hnb hvs
    refine ⟨(hiter m).1, ?_⟩
    have hu' : findUserByKey (genIter db2 req fname m) req.user_api_key
        = some u := by
      unfold findUserByKey at hu ⊢
      rw [(hiter m).1]
      exact hu
    exact (generate_speech_nonbasic (genIter db2 req fname m) req fname u
      hu' hnb ((hiter m).2 ▸ hvs)).1

/-- C9, witness: moving account 1 to the unknown tier "Gold" on the
concrete store `exDB`. -/
theorem c9_witness :
    ((handle_subscription exDB 500 1 "Gold"
        { card_number := none, expiry := none, cvv := none }).1.users.find?
        (fun x => x.id == 1)).map
        (fun x => (x.subscription_tier, x.daily_generations_left))
      = some ("Gold", 10) ∧
    (∀ db2 k u, findUserByKey db2 k = some u →
      u.subscription_tier ≠ "Basic" →
      get_current_user_by_api_key db2 k = .ok u) ∧
    (∀ db2 req fname u, findUserByKey db2 req.user_api_key = some u →
      u.subscription_tier ≠ "Basic" →
      (db2.voices.find? (fun v => v.id == req.voice_id)).isSome →
      ∀ m, (genIter db2 req fname m).users = db2.users ∧
        (generate_speech (genIter db2 req fname m) req (.ok fname)).2
          = .ok fname) :=
  c9_theorem exDB 500 1 "Gold"
    { card_number := none, expiry := none, cvv := none } exBasicUser
    (by decide) (by decide) (by decide) (by decide)

/-- C10 (implicit): the quota check gates non-generation operations
too — for every Basic-tier account with allowance at or below 0, both
fetching the generation history and attempting a voice clone fail with
the quota-exhausted error (the same `get_current_user_by_api_key`
check), though neither operation would consume a generation. -/
theorem c10_theorem (db : DB) (k : String) (u : Account)
    (hu : findUserByKey db k = some u)
    (htier : u.subscription_tier = "Basic")
    (hz : u.daily_generations_left ≤ 0) :
    get_user_history db k = .error .quotaExhausted ∧
    (∀ vn lang acc sp, clone_voice db k vn lang acc sp
      = (db, .error .quotaExhausted)) := by
  have hq := get_current_user_quota db k u hu htier hz
  constructor
  · simp only [get_user_history, hq]
  · intro vn lang acc sp
    simp only [clone_voice, hq]

/-- C10, witness: the exhausted Basic account `bob` on the concrete
store `exDB`. -/
theorem c10_witness :
    get_user_history exDB "key-zero" = .error .quotaExhausted ∧
    (∀ vn lang acc sp, clone_voice exDB "key-zero" vn lang acc sp
      = (exDB, .error .quotaExhausted)) :=
  c10_theorem exDB "key-zero" exExhaustedUser (by decide) (by decide)
    (by decide)
